import Mathlib

/-!
# Verification of the Bank collateralized-lending ledger

The repository ships the Truffle test suite (`test/bank.js`) and network
configuration for a `Bank` contract; the contract source itself is not
present under `src/`.  The definitions below therefore model the Bank's
state and operations from the specification (`spec.md`), which was written
against that contract, and the theorems settle the specification claims
against this model.

Amount parameters and timestamps are natural numbers (the contract's
amounts are unsigned machine integers); stored balances are integers so
that the non-negativity invariants are meaningful statements rather than
artifacts of the embedding.  All divisions are floor divisions on
non-negative operands, matching the contract's unsigned integer division.
-/

namespace Bank

/-- Modelled from the spec: §3 `BankConfig` — the four immutable
percentage parameters fixed at construction, all non-negative integers. -/
structure BankConfig where
  interestRatePercent : Nat
  originationFeePercent : Nat
  collateralizationRatioPercent : Nat
  liquidationPenaltyPercent : Nat
  deriving Repr, DecidableEq

/-- Modelled from the spec: §3 `Vault` — per-account collateral/debt
record; `borrowTimestamp` is meaningful only while `debtAmount > 0`. -/
structure Vault where
  collateralAmount : Int
  debtAmount : Int
  borrowTimestamp : Nat
  deriving Repr, DecidableEq

/-- The empty vault a fresh account conceptually holds (vaults spring into
existence lazily on first deposit, per spec §3 Lifecycle). -/
def Vault.empty : Vault := ⟨0, 0, 0⟩

/-- Modelled from the spec: §3 Reserve + §6 persisted state — the whole
Bank state: config, owner identity, reserve balance, and the
account→Vault mapping (total, defaulting to the empty vault). -/
structure BankState where
  config : BankConfig
  owner : Nat
  reserveBalance : Int
  vaults : Nat → Vault

/-- Modelled from the spec: §6 Construction — `new(...)` sets `owner` to
the constructing identity and `reserve.balance = 0`; no vaults exist. -/
def BankState.new (cfg : BankConfig) (owner : Nat) : BankState :=
  { config := cfg, owner := owner, reserveBalance := 0, vaults := fun _ => Vault.empty }

/-- Modelled from the spec: §7 error taxonomy. -/
inductive BankError where
  | AuthorizationError
  | InvalidAmount
  | InsufficientReserve
  | InsufficientLiquidity
  | InsufficientCollateral
  | OutstandingDebtError
  | PartialRepaymentNotAllowed
  deriving Repr, DecidableEq

/-- Modelled from the spec: §6 failure surfaces carry a human-readable
reason; the only reason string the spec records is the one for
`AuthorizationError` (other errors keep an unspecified placeholder). -/
def BankError.message : BankError → String
  | .AuthorizationError => "Ownable: caller is not the owner."
  | _ => ""

/-- Point update of the account→Vault mapping. -/
def updateVault (vaults : Nat → Vault) (account : Nat) (v : Vault) : Nat → Vault :=
  fun k => if k = account then v else vaults k

/-- Modelled from the spec: §4.4 — one daily compounding step,
`amount + floor(amount * interestRatePercent / 100 / 365)` with floor
division at each stage. -/
def compoundStep (rate : Nat) (a : Int) : Int :=
  a + a * (rate : Int) / 100 / 365

/-- Apply `n` successive daily compounding steps to `a`. -/
def compoundN (rate : Nat) : Nat → Int → Int
  | 0, a => a
  | n + 1, a => compoundStep rate (compoundN rate n a)

/-- Modelled from the spec: §4.4 `getVaultRepayAmount()` — pure and
read-only; `elapsedDays = floor((now − borrowTimestamp) / 86400)` and the
debt is compounded `elapsedDays` times.  A value, not a state transition:
it mutates nothing by construction. -/
def getVaultRepayAmount (s : BankState) (caller now : Nat) : Int :=
  let v := s.vaults caller
  compoundN s.config.interestRatePercent ((now - v.borrowTimestamp) / 86400) v.debtAmount

/-- Modelled from the spec: §4.3 step 2 — the caller's debt after
settling accrued interest: the compounded amount when the vault carries
debt, the stored (zero) debt otherwise. -/
def settledDebt (s : BankState) (caller now : Nat) : Int :=
  if 0 < (s.vaults caller).debtAmount then getVaultRepayAmount s caller now
  else (s.vaults caller).debtAmount

/-- Modelled from the spec: §4.3 step 3 — origination fee
`floor(amount * originationFeePercent / 100)`. -/
def originationFee (cfg : BankConfig) (amount : Nat) : Nat :=
  amount * cfg.originationFeePercent / 100

/-- Modelled from the spec: §4.3/§4.5 — the total prospective debt a
borrow of `amount` would leave: settled debt plus `amount` plus the
origination fee. -/
def totalPostBorrowDebt (s : BankState) (caller amount now : Nat) : Int :=
  settledDebt s caller now + (amount : Int) + (originationFee s.config amount : Int)

/-- Modelled from the spec: §4.1 `reserveDeposit(amount)` — owner only
(`AuthorizationError` otherwise), `amount > 0` (`InvalidAmount`
otherwise), increases `balance` by `amount`; the inbound transfer equals
`amount`. -/
def reserveDeposit (s : BankState) (caller amount : Nat) : Except BankError BankState :=
  if caller ≠ s.owner then .error .AuthorizationError
  else if amount = 0 then .error .InvalidAmount
  else .ok { s with reserveBalance := s.reserveBalance + (amount : Int) }

/-- Modelled from the spec: §4.1 `reserveWithdraw(amount)` — owner only,
fails `InsufficientReserve` if `amount > balance`, else decreases
`balance` by `amount` and triggers an outbound value transfer (the second
component of the result). -/
def reserveWithdraw (s : BankState) (caller amount : Nat) :
    Except BankError (BankState × Nat) :=
  if caller ≠ s.owner then .error .AuthorizationError
  else if s.reserveBalance < (amount : Int) then .error .InsufficientReserve
  else .ok ({ s with reserveBalance := s.reserveBalance - (amount : Int) }, amount)

/-- Modelled from the spec: §4.2 `vaultDeposit(amount)` — `amount > 0`,
creates the caller's vault if absent (the mapping is total so creation is
implicit), `collateralAmount += amount`. -/
def vaultDeposit (s : BankState) (caller amount : Nat) : Except BankError BankState :=
  if amount = 0 then .error .InvalidAmount
  else
    let v := s.vaults caller
    .ok { s with
      vaults := updateVault s.vaults caller
        { v with collateralAmount := v.collateralAmount + (amount : Int) } }

/-- Modelled from the spec: §4.2 `vaultWithdraw()` — full withdrawal
only; requires `debtAmount == 0`, else `OutstandingDebtError`; on success
releases `collateralAmount` via outbound transfer (the second component)
and resets the vault to empty. -/
def vaultWithdraw (s : BankState) (caller : Nat) :
    Except BankError (BankState × Int) :=
  let v := s.vaults caller
  if v.debtAmount ≠ 0 then .error .OutstandingDebtError
  else .ok ({ s with vaults := updateVault s.vaults caller Vault.empty }, v.collateralAmount)

/-- Modelled from the spec: §4.3 `vaultBorrow(amount)` — `amount > 0`;
settle accrued interest into the debt; add `amount` plus the origination
fee; check the collateralization guard on the *total* prospective debt;
require reserve liquidity; then debit the reserve, transfer `amount` out
(the second component) and record the new debt with `borrowTimestamp =
now`.  All checks precede any mutation. -/
def vaultBorrow (s : BankState) (caller amount now : Nat) :
    Except BankError (BankState × Nat) :=
  if amount = 0 then .error .InvalidAmount
  else
    let v := s.vaults caller
    let newDebt := totalPostBorrowDebt s caller amount now
    if v.collateralAmount * 100 < newDebt * (s.config.collateralizationRatioPercent : Int) then
      .error .InsufficientCollateral
    else if s.reserveBalance < (amount : Int) then .error .InsufficientLiquidity
    else .ok ({ s with
        reserveBalance := s.reserveBalance - (amount : Int),
        vaults := updateVault s.vaults caller
          { v with debtAmount := newDebt, borrowTimestamp := now } }, amount)

/-- Modelled from the spec: §4.6 `vaultRepay(amount)` — `amount` must be
at least `required = getVaultRepayAmount()`, else
`PartialRepaymentNotAllowed`; on success the inbound `amount` is credited
to the reserve, `debtAmount = 0` and `borrowTimestamp` cleared. -/
def vaultRepay (s : BankState) (caller amount now : Nat) : Except BankError BankState :=
  if (amount : Int) < getVaultRepayAmount s caller now then
    .error .PartialRepaymentNotAllowed
  else
    let v := s.vaults caller
    .ok { s with
      reserveBalance := s.reserveBalance + (amount : Int),
      vaults := updateVault s.vaults caller
        { v with debtAmount := 0, borrowTimestamp := 0 } }

/-- The states reachable from construction by any sequence of the public
mutating operations, with arbitrary callers, amounts and clock values. -/
inductive Reachable : BankState → Prop where
  | init (cfg : BankConfig) (owner : Nat) : Reachable (BankState.new cfg owner)
  | reserveDeposit {s s' : BankState} (caller amount : Nat) :
      Reachable s → reserveDeposit s caller amount = .ok s' → Reachable s'
  | reserveWithdraw {s s' : BankState} (caller amount out : Nat) :
      Reachable s → reserveWithdraw s caller amount = .ok (s', out) → Reachable s'
  | vaultDeposit {s s' : BankState} (caller amount : Nat) :
      Reachable s → vaultDeposit s caller amount = .ok s' → Reachable s'
  | vaultWithdraw {s s' : BankState} (caller : Nat) (out : Int) :
      Reachable s → vaultWithdraw s caller = .ok (s', out) → Reachable s'
  | vaultBorrow {s s' : BankState} (caller amount now out : Nat) :
      Reachable s → vaultBorrow s caller amount now = .ok (s', out) → Reachable s'
  | vaultRepay {s s' : BankState} (caller amount now : Nat) :
      Reachable s → vaultRepay s caller amount now = .ok s' → Reachable s'

/-- The monetary sign invariant: non-negative reserve, and non-negative
collateral and debt in every vault. -/
def GoodState (s : BankState) : Prop :=
  0 ≤ s.reserveBalance ∧
    ∀ a : Nat, 0 ≤ (s.vaults a).collateralAmount ∧ 0 ≤ (s.vaults a).debtAmount

/-- The spec's wording of the interest computation, as its own recursion:
starting from `debtAmount`, apply one step
`amount = amount + floor(amount * interestRatePercent / 100 / 365)` and
recurse on the remaining days (a left fold, step first).  Kept separate
from `compoundN` so that `getVaultRepayAmount` can be compared against
the spec sentence verbatim. -/
def specCompound (rate : Nat) : Nat → Int → Int
  | 0, a => a
  | n + 1, a => specCompound rate n (a + a * (rate : Int) / 100 / 365)

/-- The spec's description of `getVaultRepayAmount`: compound the stored
debt once per whole elapsed day, `elapsedDays = floor((now −
borrowTimestamp) / 86400)`. -/
def specRepayAmount (rate : Nat) (debtAmount : Int) (borrowTimestamp now : Nat) : Int :=
  specCompound rate ((now - borrowTimestamp) / 86400) debtAmount

/-! ### Concrete demonstration states

States mirroring the Truffle test fixture `Bank(12, 1, 150, 25)` (scaled
to small units so witnesses evaluate fast): a bank whose reserve holds
10000 with account 1 holding 10000 collateral, and the same bank after
account 1 borrowed 5000 (origination fee 50, so debt 5050) at time 0. -/

def demoConfig : BankConfig := ⟨12, 1, 150, 25⟩

def demoReady : BankState :=
  { config := demoConfig, owner := 0, reserveBalance := 10000,
    vaults := fun k => if k = 1 then ⟨10000, 0, 0⟩ else Vault.empty }

def demoBorrowed : BankState :=
  { config := demoConfig, owner := 0, reserveBalance := 5000,
    vaults := fun k => if k = 1 then ⟨10000, 5050, 0⟩ else Vault.empty }

/-- The state `vaultBorrow demoReady 1 5000 0` produces. -/
def demoReadyBorrowed : BankState :=
  { config := demoConfig, owner := 0, reserveBalance := 5000,
    vaults := updateVault demoReady.vaults 1 ⟨10000, 5050, 0⟩ }

/-- The state reached by constructing the demo bank with owner 0, an
owner reserve deposit of 10000, a collateral deposit of 10000 by account
1, and a borrow of 5000 by account 1 at time 0. -/
def demoChainState : BankState :=
  { config := demoConfig, owner := 0, reserveBalance := 5000,
    vaults := updateVault (updateVault (fun _ => Vault.empty) 1 ⟨10000, 0, 0⟩) 1
      ⟨10000, 5050, 0⟩ }

/-! ### Helper lemmas -/

theorem compoundN_compoundStep_comm (rate : Nat) (n : Nat) (a : Int) :
    compoundN rate n (compoundStep rate a) = compoundStep rate (compoundN rate n a) := by
  induction n with
  | zero => rfl
  | succ n ih => simp only [compoundN, ih]

theorem specCompound_eq_compoundN (rate : Nat) (n : Nat) (a : Int) :
    specCompound rate n a = compoundN rate n a := by
  induction n generalizing a with
  | zero => rfl
  | succ n ih =>
      show specCompound rate n (compoundStep rate a) = compoundN rate (n + 1) a
      rw [ih, compoundN_compoundStep_comm]
      rfl

theorem compoundStep_nonneg (rate : Nat) {a : Int} (h : 0 ≤ a) :
    0 ≤ compoundStep rate a := by
  have hdiv : (0 : Int) ≤ a * (rate : Int) / 100 / 365 :=
    Int.ediv_nonneg (Int.ediv_nonneg (mul_nonneg h (Int.natCast_nonneg rate)) (by norm_num))
      (by norm_num)
  unfold compoundStep
  linarith

theorem compoundN_nonneg (rate : Nat) (n : Nat) {a : Int} (h : 0 ≤ a) :
    0 ≤ compoundN rate n a := by
  induction n with
  | zero => exact h
  | succ n ih => exact compoundStep_nonneg rate ih

theorem getVaultRepayAmount_nonneg (s : BankState) (caller now : Nat)
    (h : 0 ≤ (s.vaults caller).debtAmount) :
    0 ≤ getVaultRepayAmount s caller now :=
  compoundN_nonneg _ _ h

theorem settledDebt_nonneg (s : BankState) (caller now : Nat)
    (h : 0 ≤ (s.vaults caller).debtAmount) :
    0 ≤ settledDebt s caller now := by
  unfold settledDebt
  split
  · exact getVaultRepayAmount_nonneg s caller now h
  · exact h

theorem totalPostBorrowDebt_nonneg (s : BankState) (caller amount now : Nat)
    (h : 0 ≤ (s.vaults caller).debtAmount) :
    0 ≤ totalPostBorrowDebt s caller amount now := by
  unfold totalPostBorrowDebt
  have h1 := settledDebt_nonneg s caller now h
  have h2 := Int.natCast_nonneg amount
  have h3 := Int.natCast_nonneg (originationFee s.config amount)
  linarith

theorem goodState_new (cfg : BankConfig) (owner : Nat) :
    GoodState (BankState.new cfg owner) := by
  refine ⟨le_refl 0, fun a => ⟨le_refl 0, le_refl 0⟩⟩

theorem reserveDeposit_good {s s' : BankState} {caller amount : Nat}
    (hg : GoodState s) (h : reserveDeposit s caller amount = .ok s') : GoodState s' := by
  unfold reserveDeposit at h
  split_ifs at h
  injection h with h
  subst h
  refine ⟨?_, hg.2⟩
  have := Int.natCast_nonneg amount
  have := hg.1
  simp only []
  linarith

theorem reserveWithdraw_good {s s' : BankState} {caller amount out : Nat}
    (hg : GoodState s) (h : reserveWithdraw s caller amount = .ok (s', out)) : GoodState s' := by
  unfold reserveWithdraw at h
  split_ifs at h with h1 h2
  injection h with h
  have hs : ({ s with reserveBalance := s.reserveBalance - (amount : Int) } : BankState) = s' :=
    congrArg Prod.fst h
  subst hs
  refine ⟨?_, hg.2⟩
  simp only [not_lt] at h2
  simp only []
  linarith

theorem vaultDeposit_good {s s' : BankState} {caller amount : Nat}
    (hg : GoodState s) (h : vaultDeposit s caller amount = .ok s') : GoodState s' := by
  simp only [vaultDeposit] at h
  split_ifs at h
  injection h with h
  subst h
  refine ⟨hg.1, fun a => ?_⟩
  simp only [updateVault]
  split
  · have h1 := (hg.2 caller).1
    have h2 := (hg.2 caller).2
    have := Int.natCast_nonneg amount
    exact ⟨by simp only []; linarith, h2⟩
  · exact hg.2 a

theorem vaultWithdraw_good {s s' : BankState} {caller : Nat} {out : Int}
    (hg : GoodState s) (h : vaultWithdraw s caller = .ok (s', out)) : GoodState s' := by
  simp only [vaultWithdraw] at h
  split_ifs at h
  injection h with h
  have hs : ({ s with vaults := updateVault s.vaults caller Vault.empty } : BankState) = s' :=
    congrArg Prod.fst h
  subst hs
  refine ⟨hg.1, fun a => ?_⟩
  simp only [updateVault]
  split
  · exact ⟨le_refl 0, le_refl 0⟩
  · exact hg.2 a

theorem vaultBorrow_good {s s' : BankState} {caller amount now out : Nat}
    (hg : GoodState s) (h : vaultBorrow s caller amount now = .ok (s', out)) : GoodState s' := by
  simp only [vaultBorrow] at h
  split_ifs at h with h1 h2 h3
  injection h with h
  have hs : ({ s with
      reserveBalance := s.reserveBalance - (amount : Int),
      vaults := updateVault s.vaults caller
        { s.vaults caller with
          debtAmount := totalPostBorrowDebt s caller amount now,
          borrowTimestamp := now } } : BankState) = s' :=
    congrArg Prod.fst h
  subst hs
  simp only [not_lt] at h3
  refine ⟨by simp only []; linarith [hg.1], fun a => ?_⟩
  simp only [updateVault]
  split
  · exact ⟨(hg.2 caller).1, totalPostBorrowDebt_nonneg s caller amount now (hg.2 caller).2⟩
  · exact hg.2 a

theorem vaultRepay_good {s s' : BankState} {caller amount now : Nat}
    (hg : GoodState s) (h : vaultRepay s caller amount now = .ok s') : GoodState s' := by
  simp only [vaultRepay] at h
  split_ifs at h
  injection h with h
  subst h
  refine ⟨by have := Int.natCast_nonneg amount; simp only []; linarith [hg.1], fun a => ?_⟩
  simp only [updateVault]
  split
  · exact ⟨(hg.2 caller).1, le_refl 0⟩
  · exact hg.2 a

/-! ### Claim theorems -/

/-- C1: for every vault with positive debt and every current time,
`getVaultRepayAmount` returns exactly the value obtained by starting from
`debtAmount` and applying `floor((now − borrowTimestamp) / 86400)`
successive steps `amount = amount + floor(amount * interestRatePercent /
100 / 365)`, floor division at each step; partial days contribute nothing
(only whole days enter the fold) and, being a plain function of the
state, the call mutates nothing. -/
theorem c1_getVaultRepayAmount_stepwise (s : BankState) (caller now : Nat)
    (hd : 0 < (s.vaults caller).debtAmount) :
    getVaultRepayAmount s caller now =
      specRepayAmount s.config.interestRatePercent (s.vaults caller).debtAmount
        (s.vaults caller).borrowTimestamp now := by
  unfold getVaultRepayAmount specRepayAmount
  rw [specCompound_eq_compoundN]

theorem c1_witness :
    0 < (demoBorrowed.vaults 1).debtAmount ∧
      getVaultRepayAmount demoBorrowed 1 172810 =
        specRepayAmount demoBorrowed.config.interestRatePercent
          (demoBorrowed.vaults 1).debtAmount (demoBorrowed.vaults 1).borrowTimestamp 172810 :=
  ⟨by decide, c1_getVaultRepayAmount_stepwise demoBorrowed 1 172810 (by decide)⟩

/-- C2: starting from a vault with zero debt, a `vaultBorrow` of a
positive amount that passes the collateralization guard and the liquidity
check succeeds and leaves the caller's `debtAmount` equal to
`amount + floor(amount * originationFeePercent / 100)`. -/
theorem c2_vaultBorrow_originationFee (s : BankState) (caller amount now : Nat)
    (hdebt : (s.vaults caller).debtAmount = 0)
    (hamt : 0 < amount)
    (hcoll : ¬ (s.vaults caller).collateralAmount * 100 <
      totalPostBorrowDebt s caller amount now * (s.config.collateralizationRatioPercent : Int))
    (hliq : ¬ s.reserveBalance < (amount : Int)) :
    vaultBorrow s caller amount now =
      .ok ({ s with
        reserveBalance := s.reserveBalance - (amount : Int),
        vaults := updateVault s.vaults caller
          { s.vaults caller with
            debtAmount := (amount : Int) + (originationFee s.config amount : Int),
            borrowTimestamp := now } }, amount) ∧
    ((updateVault s.vaults caller
        { s.vaults caller with
          debtAmount := (amount : Int) + (originationFee s.config amount : Int),
          borrowTimestamp := now }) caller).debtAmount =
      (amount : Int) + (originationFee s.config amount : Int) := by
  have hne : amount ≠ 0 := Nat.pos_iff_ne_zero.mp hamt
  have hsd : settledDebt s caller now = 0 := by
    unfold settledDebt
    rw [hdebt]
    simp
  constructor
  · simp only [vaultBorrow, if_neg hne, if_neg hcoll, if_neg hliq]
    simp [totalPostBorrowDebt, hsd]
  · simp [updateVault]

theorem c2_witness :
    vaultBorrow demoReady 1 5000 0 =
      .ok ({ demoReady with
        reserveBalance := demoReady.reserveBalance - ((5000 : Nat) : Int),
        vaults := updateVault demoReady.vaults 1
          { demoReady.vaults 1 with
            debtAmount := ((5000 : Nat) : Int) + (originationFee demoReady.config 5000 : Int),
            borrowTimestamp := 0 } }, 5000) ∧
    ((updateVault demoReady.vaults 1
        { demoReady.vaults 1 with
          debtAmount := ((5000 : Nat) : Int) + (originationFee demoReady.config 5000 : Int),
          borrowTimestamp := 0 }) 1).debtAmount =
      ((5000 : Nat) : Int) + (originationFee demoReady.config 5000 : Int) :=
  c2_vaultBorrow_originationFee demoReady 1 5000 0 (by decide) (by decide) (by decide) (by decide)

/-- C3: for a vault with positive debt, repaying at least the computed
repay amount succeeds, credits the paid amount to the reserve, zeroes
`debtAmount` and clears `borrowTimestamp`; repaying less fails with
`PartialRepaymentNotAllowed` (and, the call having no effect, debt is
neither zeroed nor reduced). -/
theorem c3_vaultRepay_spec (s : BankState) (caller amount now : Nat)
    (hd : 0 < (s.vaults caller).debtAmount) :
    (getVaultRepayAmount s caller now ≤ (amount : Int) →
      vaultRepay s caller amount now =
        .ok { s with
          reserveBalance := s.reserveBalance + (amount : Int),
          vaults := updateVault s.vaults caller
            { s.vaults caller with debtAmount := 0, borrowTimestamp := 0 } }) ∧
    ((amount : Int) < getVaultRepayAmount s caller now →
      vaultRepay s caller amount now = .error .PartialRepaymentNotAllowed) := by
  constructor
  · intro h
    simp [vaultRepay, not_lt.mpr h]
  · intro h
    simp [vaultRepay, h]

theorem c3_witness :
    vaultRepay demoBorrowed 1 5052 172810 =
        .ok { demoBorrowed with
          reserveBalance := demoBorrowed.reserveBalance + ((5052 : Nat) : Int),
          vaults := updateVault demoBorrowed.vaults 1
            { demoBorrowed.vaults 1 with debtAmount := 0, borrowTimestamp := 0 } } ∧
      vaultRepay demoBorrowed 1 5051 172810 = .error .PartialRepaymentNotAllowed :=
  ⟨(c3_vaultRepay_spec demoBorrowed 1 5052 172810 (by decide)).1 (by decide),
   (c3_vaultRepay_spec demoBorrowed 1 5051 172810 (by decide)).2 (by decide)⟩

/-- C4: a `vaultBorrow` succeeds only if `collateralAmount * 100 ≥
totalPostBorrowDebt * collateralizationRatioPercent`, where
`totalPostBorrowDebt` is the caller's accrued debt plus the amount plus
the origination fee (the total prospective debt, not the increment); a
guard violation on a positive amount fails with `InsufficientCollateral`
(a zero amount is already rejected earlier as `InvalidAmount`). -/
theorem c4_vaultBorrow_guard (s : BankState) (caller amount now : Nat) :
    ((vaultBorrow s caller amount now).isOk = true →
      totalPostBorrowDebt s caller amount now * (s.config.collateralizationRatioPercent : Int) ≤
        (s.vaults caller).collateralAmount * 100) ∧
    (0 < amount →
      (s.vaults caller).collateralAmount * 100 <
        totalPostBorrowDebt s caller amount now * (s.config.collateralizationRatioPercent : Int) →
      vaultBorrow s caller amount now = .error .InsufficientCollateral) := by
  constructor
  · intro h
    simp only [vaultBorrow] at h
    split_ifs at h with h1 h2 h3
    · simp [Except.isOk, Except.toBool] at h
    · simp [Except.isOk, Except.toBool] at h
    · simp [Except.isOk, Except.toBool] at h
    · exact not_lt.mp h2
  · intro hamt hveto
    simp only [vaultBorrow, if_neg (Nat.pos_iff_ne_zero.mp hamt), if_pos hveto]

theorem c4_witness :
    (totalPostBorrowDebt demoReady 1 5000 0 *
        (demoReady.config.collateralizationRatioPercent : Int) ≤
      (demoReady.vaults 1).collateralAmount * 100) ∧
    vaultBorrow demoReady 1 10000 0 = .error .InsufficientCollateral :=
  ⟨(c4_vaultBorrow_guard demoReady 1 5000 0).1 (by decide),
   (c4_vaultBorrow_guard demoReady 1 10000 0).2 (by decide) (by decide)⟩

/-- C5: `vaultWithdraw` succeeds exactly when the caller's `debtAmount`
is zero — otherwise it fails with `OutstandingDebtError` (an error
result, so the vault is untouched); on success the vault is reset to
empty (collateral and debt both zero afterwards) and the full previous
collateral is the outbound transfer. -/
theorem c5_vaultWithdraw_spec (s : BankState) (caller : Nat) :
    ((s.vaults caller).debtAmount = 0 →
      vaultWithdraw s caller =
        .ok ({ s with vaults := updateVault s.vaults caller Vault.empty },
          (s.vaults caller).collateralAmount) ∧
      ((updateVault s.vaults caller Vault.empty) caller).collateralAmount = 0 ∧
      ((updateVault s.vaults caller Vault.empty) caller).debtAmount = 0) ∧
    ((s.vaults caller).debtAmount ≠ 0 →
      vaultWithdraw s caller = .error .OutstandingDebtError) := by
  constructor
  · intro h
    refine ⟨by simp [vaultWithdraw, h], by simp [updateVault, Vault.empty], by
      simp [updateVault, Vault.empty]⟩
  · intro h
    simp [vaultWithdraw, h]

theorem c5_witness :
    (vaultWithdraw demoReady 1 =
        .ok ({ demoReady with vaults := updateVault demoReady.vaults 1 Vault.empty },
          (demoReady.vaults 1).collateralAmount) ∧
      ((updateVault demoReady.vaults 1 Vault.empty) 1).collateralAmount = 0 ∧
      ((updateVault demoReady.vaults 1 Vault.empty) 1).debtAmount = 0) ∧
    vaultWithdraw demoBorrowed 1 = .error .OutstandingDebtError :=
  ⟨(c5_vaultWithdraw_spec demoReady 1).1 (by decide),
   (c5_vaultWithdraw_spec demoBorrowed 1).2 (by decide)⟩

/-- C6: an owner `reserveDeposit` of a positive amount increases the
reserve balance by exactly that amount, while `reserveDeposit` and
`reserveWithdraw` from any non-owner caller, with any amount, fail with
`AuthorizationError` (an error result, so the reserve is unchanged),
whose reason string is "Ownable: caller is not the owner.". -/
theorem c6_reserve_authorization (s : BankState) (caller amount : Nat) :
    (caller = s.owner → 0 < amount →
      reserveDeposit s caller amount =
        .ok { s with reserveBalance := s.reserveBalance + (amount : Int) }) ∧
    (caller ≠ s.owner →
      reserveDeposit s caller amount = .error .AuthorizationError ∧
      reserveWithdraw s caller amount = .error .AuthorizationError ∧
      BankError.message .AuthorizationError = "Ownable: caller is not the owner.") := by
  constructor
  · intro hown hamt
    simp [reserveDeposit, hown, Nat.pos_iff_ne_zero.mp hamt]
  · intro hown
    exact ⟨by simp [reserveDeposit, hown], by simp [reserveWithdraw, hown], rfl⟩

theorem c6_witness :
    reserveDeposit demoReady 0 100 =
        .ok { demoReady with reserveBalance := demoReady.reserveBalance + ((100 : Nat) : Int) } ∧
      (reserveDeposit demoReady 1 100 = .error .AuthorizationError ∧
        reserveWithdraw demoReady 1 100 = .error .AuthorizationError ∧
        BankError.message .AuthorizationError = "Ownable: caller is not the owner.") :=
  ⟨(c6_reserve_authorization demoReady 0 100).1 (by decide) (by decide),
   (c6_reserve_authorization demoReady 1 100).2 (by decide)⟩

/-- C7: an owner `reserveWithdraw` fails with `InsufficientReserve` when
the amount exceeds the reserve balance, and otherwise decreases the
balance by exactly the amount while triggering the outbound value
transfer of that amount (the second result component). -/
theorem c7_reserveWithdraw_spec (s : BankState) (caller amount : Nat)
    (hown : caller = s.owner) :
    (s.reserveBalance < (amount : Int) →
      reserveWithdraw s caller amount = .error .InsufficientReserve) ∧
    ((amount : Int) ≤ s.reserveBalance →
      reserveWithdraw s caller amount =
        .ok ({ s with reserveBalance := s.reserveBalance - (amount : Int) }, amount)) := by
  constructor
  · intro h
    simp [reserveWithdraw, hown, h]
  · intro h
    simp [reserveWithdraw, hown, not_lt.mpr h]

theorem c7_witness :
    reserveWithdraw demoReady 0 20000 = .error .InsufficientReserve ∧
      reserveWithdraw demoReady 0 5000 =
        .ok ({ demoReady with
          reserveBalance := demoReady.reserveBalance - ((5000 : Nat) : Int) }, 5000) :=
  ⟨(c7_reserveWithdraw_spec demoReady 0 20000 (by decide)).1 (by decide),
   (c7_reserveWithdraw_spec demoReady 0 5000 (by decide)).2 (by decide)⟩

/-- C8: a `vaultDeposit` of a positive amount by an account with no prior
vault (the empty vault) succeeds and leaves that account's vault with
`collateralAmount` equal to the deposited amount and `debtAmount` zero. -/
theorem c8_vaultDeposit_fresh (s : BankState) (caller amount : Nat)
    (hfresh : s.vaults caller = Vault.empty)
    (hamt : 0 < amount) :
    vaultDeposit s caller amount =
      .ok { s with vaults := updateVault s.vaults caller ⟨(amount : Int), 0, 0⟩ } ∧
    ((updateVault s.vaults caller ⟨(amount : Int), 0, 0⟩) caller).collateralAmount =
      (amount : Int) ∧
    ((updateVault s.vaults caller ⟨(amount : Int), 0, 0⟩) caller).debtAmount = 0 := by
  refine ⟨?_, by simp [updateVault], by simp [updateVault]⟩
  simp [vaultDeposit, Nat.pos_iff_ne_zero.mp hamt, hfresh, Vault.empty]

theorem c8_witness :
    vaultDeposit demoReady 2 777 =
        .ok { demoReady with vaults := updateVault demoReady.vaults 2 ⟨((777 : Nat) : Int), 0, 0⟩ } ∧
      ((updateVault demoReady.vaults 2 ⟨((777 : Nat) : Int), 0, 0⟩) 2).collateralAmount =
        ((777 : Nat) : Int) ∧
      ((updateVault demoReady.vaults 2 ⟨((777 : Nat) : Int), 0, 0⟩) 2).debtAmount = 0 :=
  c8_vaultDeposit_fresh demoReady 2 777 (by decide) (by decide)

/-- C9: every state reachable from construction by any sequence of the
public operations (with arbitrary callers, amounts and clock values)
keeps the reserve balance non-negative and, in every vault, both the
collateral and the debt non-negative. -/
theorem c9_reachable_invariant (s : BankState) (h : Reachable s) : GoodState s := by
  induction h with
  | init cfg owner => exact goodState_new cfg owner
  | reserveDeposit caller amount hr heq ih => exact reserveDeposit_good ih heq
  | reserveWithdraw caller amount out hr heq ih => exact reserveWithdraw_good ih heq
  | vaultDeposit caller amount hr heq ih => exact vaultDeposit_good ih heq
  | vaultWithdraw caller out hr heq ih => exact vaultWithdraw_good ih heq
  | vaultBorrow caller amount now out hr heq ih => exact vaultBorrow_good ih heq
  | vaultRepay caller amount now hr heq ih => exact vaultRepay_good ih heq

theorem c9_witness : GoodState demoChainState :=
  c9_reachable_invariant demoChainState
    (Reachable.vaultBorrow 1 5000 0 5000
      (Reachable.vaultDeposit 1 10000
        (Reachable.reserveDeposit 0 10000 (Reachable.init demoConfig 0) rfl) rfl) rfl)

/-- C10: a successful `vaultBorrow` leaves the caller's
`collateralAmount` unchanged — borrowing touches only the debt, the
borrow timestamp and the reserve, never the collateral balance. -/
theorem c10_vaultBorrow_preserves_collateral (s : BankState) (caller amount now : Nat)
    (p : BankState × Nat) (h : vaultBorrow s caller amount now = .ok p) :
    (p.1.vaults caller).collateralAmount = (s.vaults caller).collateralAmount := by
  simp only [vaultBorrow] at h
  split_ifs at h
  injection h with h
  subst h
  simp [updateVault]

theorem c10_witness :
    (demoReadyBorrowed.vaults 1).collateralAmount = (demoReady.vaults 1).collateralAmount :=
  c10_vaultBorrow_preserves_collateral demoReady 1 5000 0 (demoReadyBorrowed, 5000) rfl

end Bank
